import Mathlib

/-!
Verification development for the real-time cyclic executive in
`examples/pubsub_realtime/pubsub_TSN_publisher.c` (open62541).

The C program is embedded shallowly:
  - `struct timespec` becomes `Timespec` with mathematical integer fields
    (`tv_sec` is `time_t`, `tv_nsec` is `__syscall_slong_t`; both 64-bit
    signed; the quantities manipulated here never approach `2^63`, except
    where the code casts to `UA_UInt64`, which is modelled with an explicit
    `% 2^64`).
  - The globals mutated by the periodic threads (counters, measurement
    arrays, the `running` flag) become an explicit state record `AppState`,
    and each C function that mutates them becomes a state-passing Lean
    function.
  - IEEE-754 double expressions that the program evaluates once on concrete
    compile-time constants are replaced by the exact integer each expression
    produces; each such constant is annotated with the C expression and its
    rounding analysis.
-/

/-- C struct timespec: an absolute deadline as a (seconds, nanoseconds) pair. -/
structure Timespec where
  tv_sec : Int
  tv_nsec : Int
deriving DecidableEq, Repr

/-- C macro `SECONDS` = `1000 * 1000 * 1000`: nanoseconds in one second. -/
def SECONDS : Int := 1000 * 1000 * 1000

/-- C macro `SECONDS_INCREMENT` = `1`. -/
def SECONDS_INCREMENT : Int := 1

/-- C macro `MILLI_SECONDS` = `1000 * 1000`: nanoseconds in one millisecond. -/
def MILLI_SECONDS : Int := 1000 * 1000

/-- C macro `SECONDS_SLEEP` = `5`: warm-up delay in seconds. -/
def SECONDS_SLEEP : Int := 5

/-- C macro `MAX_MEASUREMENTS` = `10000000`: capacity of each measurement array. -/
def MAX_MEASUREMENTS : Nat := 10000000

/-- C macro `REPEATED_NODECOUNTS` = `2`: number of repeated counter cells. -/
def REPEATED_NODECOUNTS : Nat := 2

/-- C macro `DEFAULT_QBV_OFFSET` = `125` (microseconds), default of `qbvOffset`. -/
def DEFAULT_QBV_OFFSET : Int := 125

/-- C function `static void nanoSecondFieldConversion(struct timespec *timeSpecValue)`:

    while (timeSpecValue->tv_nsec > (SECONDS -1)) \x7b
        timeSpecValue->tv_sec  += SECONDS_INCREMENT;
        timeSpecValue->tv_nsec -= SECONDS;
    \x7d
-/
def nanoSecondFieldConversion (timeSpecValue : Timespec) : Timespec :=
  if h : timeSpecValue.tv_nsec > SECONDS - 1 then
    nanoSecondFieldConversion
      { tv_sec := timeSpecValue.tv_sec + SECONDS_INCREMENT,
        tv_nsec := timeSpecValue.tv_nsec - SECONDS }
  else
    timeSpecValue
termination_by timeSpecValue.tv_nsec.toNat
decreasing_by
  simp only [SECONDS] at h ⊢
  omega

/-- The absolute time denoted by a `Timespec`, in nanoseconds. -/
def totalNanoseconds (t : Timespec) : Int := t.tv_sec * SECONDS + t.tv_nsec

/-- The deadline advance performed at the bottom of every periodic loop
(`publisherETF`, `subscriber`, `userApplicationPubSub`):
`next.tv_nsec += interval_ns; nanoSecondFieldConversion(&next);`. -/
def advanceDeadline (interval_ns : Int) (next : Timespec) : Timespec :=
  nanoSecondFieldConversion { next with tv_nsec := next.tv_nsec + interval_ns }

/-- The sequence of absolute deadlines fired by a periodic loop that starts at
`next0` and advances by `interval_ns` after every fire: `deadlineSeq P next0 k`
is the deadline of the k-th fire. -/
def deadlineSeq (interval_ns : Int) (next0 : Timespec) : Nat → Timespec
  | 0 => next0
  | k + 1 => advanceDeadline interval_ns (deadlineSeq interval_ns next0 k)

/-- Value of `(UA_UInt64)(threadArguments->interval_ms * MILLI_SECONDS)` at the
default cycle time `cycleTimeInMsec = 0.25`: the double expression
`(0.25 * 1000) * 1000` evaluates exactly to `250000.0`, truncated to `250000`. -/
def defaultInterval_ns : Nat := 250000

/-- Value of `(__syscall_slong_t)(cycleTimeInMsec * MILLI_SECONDS * pubWakeupPercentage)`
at the defaults `cycleTimeInMsec = 0.25`, `pubWakeupPercentage = 0.6`: the exact
product `250000 * fl(0.6)` lies within half an ulp of `150000`, so the double
expression rounds to exactly `150000.0`, truncated to `150000` (= 0.6·250000). -/
def publisherETF_initial_tv_nsec : Int := 150000

/-- Value of `(__syscall_slong_t)subWakeupPercentage` with
`subWakeupPercentage = 0` (a compile-time constant, not settable from the CLI):
`0`. Note the subscriber writes the bare fraction, not fraction·period; both
are `0` here. -/
def subscriber_initial_tv_nsec : Int := 0

/-- Value of `(__syscall_slong_t)(cycleTimeInMsec * MILLI_SECONDS * userAppWakeupPercentage)`
at the defaults `cycleTimeInMsec = 0.25`, `userAppWakeupPercentage = 0.3`: the
exact product `250000 * fl(0.3)` lies within half an ulp of `75000`, so the
double expression rounds to exactly `75000.0`, truncated to `75000`
(= 0.3·250000). -/
def userApplicationPubSub_initial_tv_nsec : Int := 75000

/-- Value of `(UA_UInt64)((cycleTimeInMsec * MILLI_SECONDS) -
(cycleTimeInMsec * MILLI_SECONDS * pubWakeupPercentage))` (`roundOffCycleTime`
in `publisherETF`) at the defaults: `250000.0 - 150000.0 = 100000.0`,
truncated to `100000`. -/
def defaultRoundOffCycleTime : Nat := 100000

/-- Twos-complement cast of a signed C integer to `UA_UInt64`. -/
def u64ofInt (x : Int) : Nat := (x % (2 ^ 64)).toNat

/-- The transmission timestamp computed at each fire of `publisherETF`:

    transmission_time = ((UA_UInt64)nextnanosleeptime.tv_sec * SECONDS +
                         (UA_UInt64)nextnanosleeptime.tv_nsec)
                        + roundOffCycleTime + (UA_UInt64)(qbvOffset * 1000);

All operations are `UA_UInt64` arithmetic; reducing once by `2^64` at the end
is equal to reducing after every operation. -/
def transmission_time (qbvOffset : Int) (roundOffCycleTime : Nat) (next : Timespec) : Nat :=
  (u64ofInt next.tv_sec * (1000 * 1000 * 1000) + u64ofInt next.tv_nsec +
    roundOffCycleTime + u64ofInt (qbvOffset * 1000)) % 2 ^ 64

/-- The initial deadline computed by `publisherETF` (lines 773-777): read the
clock into `nextnanosleeptime`, add `SECONDS_SLEEP` to `tv_sec`, overwrite
`tv_nsec` with the publish wake-phase offset, then normalize. -/
def publisherETF_initialDeadline (t0 : Timespec) : Timespec :=
  nanoSecondFieldConversion
    { tv_sec := t0.tv_sec + SECONDS_SLEEP, tv_nsec := publisherETF_initial_tv_nsec }

/-- The initial deadline computed by `subscriber` (lines 830-834). -/
def subscriber_initialDeadline (t0 : Timespec) : Timespec :=
  nanoSecondFieldConversion
    { tv_sec := t0.tv_sec + SECONDS_SLEEP, tv_nsec := subscriber_initial_tv_nsec }

/-- The initial deadline computed by `userApplicationPubSub` (lines 858-862). -/
def userApplicationPubSub_initialDeadline (t0 : Timespec) : Timespec :=
  nanoSecondFieldConversion
    { tv_sec := t0.tv_sec + SECONDS_SLEEP, tv_nsec := userApplicationPubSub_initial_tv_nsec }

/-- The global mutable state touched by the measurement loggers and the
user-application loop: the `running` flag, the publisher-owned counters
(`pubCounterData`, `repeatedCounterData`), the subscriber counter
(`subCounterData`, written by the subscriber thread, only read here), the two
measurement records (count plus content arrays), and the user-application
thread deadline. `UA_UInt64` cells are `Nat` values < 2^64. -/
structure AppState where
  running : Bool
  pubCounterData : Nat
  repeatedCounterData : Fin REPEATED_NODECOUNTS → Nat
  subCounterData : Nat
  measurementsPublisher : Nat
  publishTimestamp : Nat → Timespec
  publishCounterValue : Nat → Nat
  measurementsSubscriber : Nat
  subscribeTimestamp : Nat → Timespec
  subscribeCounterValue : Nat → Nat
  nextnanosleeptimeUserApplication : Timespec

/-- The C globals at program start: `running = UA_TRUE`, zero-initialized
counters and arrays, measurement counts 0. -/
def initialAppState : AppState where
  running := true
  pubCounterData := 0
  repeatedCounterData := fun _ => 0
  subCounterData := 0
  measurementsPublisher := 0
  publishTimestamp := fun _ => { tv_sec := 0, tv_nsec := 0 }
  publishCounterValue := fun _ => 0
  measurementsSubscriber := 0
  subscribeTimestamp := fun _ => { tv_sec := 0, tv_nsec := 0 }
  subscribeCounterValue := fun _ => 0
  nextnanosleeptimeUserApplication := { tv_sec := 0, tv_nsec := 0 }

/-- C function `static void updateMeasurementsPublisher(struct timespec start_time,
UA_UInt64 counterValue)`: if the record is full, set `running = UA_FALSE` and
return; otherwise store the (timestamp, counter) pair at index
`measurementsPublisher` and increment the count. -/
def updateMeasurementsPublisher (st : AppState) (start_time : Timespec)
    (counterValue : Nat) : AppState :=
  if st.measurementsPublisher ≥ MAX_MEASUREMENTS then
    { st with running := false }
  else
    { st with
      publishTimestamp := Function.update st.publishTimestamp st.measurementsPublisher start_time,
      publishCounterValue :=
        Function.update st.publishCounterValue st.measurementsPublisher counterValue,
      measurementsPublisher := st.measurementsPublisher + 1 }

/-- C function `static void updateMeasurementsSubscriber(struct timespec receive_time,
UA_UInt64 counterValue)`: the subscriber-side analogue. -/
def updateMeasurementsSubscriber (st : AppState) (receive_time : Timespec)
    (counterValue : Nat) : AppState :=
  if st.measurementsSubscriber ≥ MAX_MEASUREMENTS then
    { st with running := false }
  else
    { st with
      subscribeTimestamp :=
        Function.update st.subscribeTimestamp st.measurementsSubscriber receive_time,
      subscribeCounterValue :=
        Function.update st.subscribeCounterValue st.measurementsSubscriber counterValue,
      measurementsSubscriber := st.measurementsSubscriber + 1 }

/-- Performs `k` consecutive calls of `updateMeasurementsPublisher`, call `j` supplying
the pair `inputs j` (timestamp, counter value). -/
def iterateUpdatePublisher (inputs : Nat → Timespec × Nat) : Nat → AppState → AppState
  | 0, st => st
  | k + 1, st =>
      updateMeasurementsPublisher (iterateUpdatePublisher inputs k st) (inputs k).1 (inputs k).2

/-- Performs `k` consecutive calls of `updateMeasurementsSubscriber`. -/
def iterateUpdateSubscriber (inputs : Nat → Timespec × Nat) : Nat → AppState → AppState
  | 0, st => st
  | k + 1, st =>
      updateMeasurementsSubscriber (iterateUpdateSubscriber inputs k st) (inputs k).1 (inputs k).2

/-- The initialization performed by `userApplicationPubSub` before its loop
(lines 855-867): compute the initial deadline, set `*pubCounterData = 0`, and
set every repeated counter to `repeatedCounterValue = 10`. -/
def userApplicationPubSub_init (t0 : Timespec) (st : AppState) : AppState :=
  { st with
    nextnanosleeptimeUserApplication := userApplicationPubSub_initialDeadline t0,
    pubCounterData := 0,
    repeatedCounterData := fun _ => 10 }

/-- One iteration of the `userApplicationPubSub` loop body (lines 870-892),
with both `PUBLISHER` and `SUBSCRIBER` compiled in (both are `#define`d):
increment `*pubCounterData` and every repeated counter (`UA_UInt64`
arithmetic), capture `dataModificationTime` and `dataReceiveTime` from the
clock (inputs here), then, if `enableCsvLog`, append to the publisher
measurement record, and, only if `*subCounterData > 0`, to the subscriber
measurement record; finally advance the deadline by
`(__syscall_slong_t)(cycleTimeInMsec * MILLI_SECONDS)` (`cycle_ns`) and
normalize. -/
def userApplicationPubSub_body (enableCsvLog : Bool) (cycle_ns : Int)
    (dataModificationTime dataReceiveTime : Timespec) (st : AppState) : AppState :=
  let st1 := { st with
    pubCounterData := (st.pubCounterData + 1) % 2 ^ 64,
    repeatedCounterData := fun i => (st.repeatedCounterData i + 1) % 2 ^ 64 }
  let st2 :=
    if enableCsvLog then
      let stP := updateMeasurementsPublisher st1 dataModificationTime st1.pubCounterData
      if st1.subCounterData > 0 then
        updateMeasurementsSubscriber stP dataReceiveTime st1.subCounterData
      else stP
    else st1
  { st2 with
    nextnanosleeptimeUserApplication :=
      advanceDeadline cycle_ns st2.nextnanosleeptimeUserApplication }

/-- Performs `N` iterations of the `userApplicationPubSub` loop body; iteration `k`
reads clock values `tsMod k` and `tsRecv k`. -/
def userApplicationPubSub_loop (enableCsvLog : Bool) (cycle_ns : Int)
    (tsMod tsRecv : Nat → Timespec) : Nat → AppState → AppState
  | 0, st => st
  | k + 1, st =>
      userApplicationPubSub_body enableCsvLog cycle_ns (tsMod k) (tsRecv k)
        (userApplicationPubSub_loop enableCsvLog cycle_ns tsMod tsRecv k st)

/-- Outcome of `main`: either the process exits before any role thread is
created (the early `return` statements), or the checks pass, the role threads
are created and the exit status is the one of the final
`return (int)retval;`. -/
inductive MainOutcome where
  | exitBeforeThreads (code : Int)
  | threadsStarted (code : Int)
deriving DecidableEq, Repr

/-- The control flow of `main` (lines 1065-1329) up to the creation of the
role threads, and its exit status. `interface` is `NULL` or the `-interface`
argument; `cycleTimeInMsec` is the parsed `-cycleTimeInMsec` double (an exact
rational here); `helpFlag` is the `-help` option; `allocOk` models the
`UA_malloc` of the transport-layer table succeeding; `serverRunStatus` is the
`UA_StatusCode` (a `UA_UInt32`) accumulated into `retval` from
`UA_Server_run`, 0 (= `UA_STATUSCODE_GOOD`) on clean shutdown. The checks
happen in source order: the `-help` early return inside the getopt loop, then
`if (!interface)`, then `if (cycleTimeInMsec < 0.125)`, then the allocation
(`return EXIT_FAILURE` = 1), all before `threadCreation` is ever reached. -/
def mainOutcome (interface : Option String) (cycleTimeInMsec : ℚ) (helpFlag : Bool)
    (allocOk : Bool) (serverRunStatus : Nat) : MainOutcome :=
  if helpFlag then .exitBeforeThreads (-1)
  else if interface = none then .exitBeforeThreads (-1)
  else if cycleTimeInMsec < 0.125 then .exitBeforeThreads (-1)
  else if !allocOk then .exitBeforeThreads 1
  else .threadsStarted (Int.ofNat serverRunStatus)

theorem nanoSecondFieldConversion_totalNanoseconds (t : Timespec) :
    totalNanoseconds (nanoSecondFieldConversion t) = totalNanoseconds t := by
  induction t using nanoSecondFieldConversion.induct with
  | case1 t h ih =>
      rw [nanoSecondFieldConversion, dif_pos h]
      simp only [totalNanoseconds, SECONDS, SECONDS_INCREMENT] at *
      omega
  | case2 t h =>
      rw [nanoSecondFieldConversion, dif_neg h]

theorem nanoSecondFieldConversion_tv_nsec_lt (t : Timespec) :
    (nanoSecondFieldConversion t).tv_nsec < SECONDS := by
  induction t using nanoSecondFieldConversion.induct with
  | case1 t h ih =>
      rw [nanoSecondFieldConversion, dif_pos h]
      exact ih
  | case2 t h =>
      rw [nanoSecondFieldConversion, dif_neg h]
      omega

theorem nanoSecondFieldConversion_tv_nsec_nonneg (t : Timespec) (ht : 0 ≤ t.tv_nsec) :
    0 ≤ (nanoSecondFieldConversion t).tv_nsec := by
  induction t using nanoSecondFieldConversion.induct with
  | case1 t h ih =>
      rw [nanoSecondFieldConversion, dif_pos h]
      apply ih
      simp only [SECONDS] at h ⊢
      omega
  | case2 t h =>
      rw [nanoSecondFieldConversion, dif_neg h]
      exact ht

theorem nanoSecondFieldConversion_closed_form (t : Timespec) (ht : 0 ≤ t.tv_nsec) :
    nanoSecondFieldConversion t =
      { tv_sec := t.tv_sec + t.tv_nsec / SECONDS, tv_nsec := t.tv_nsec % SECONDS } := by
  induction t using nanoSecondFieldConversion.induct with
  | case1 t h ih =>
      rw [nanoSecondFieldConversion, dif_pos h]
      rw [ih (by simp only [SECONDS] at h ⊢; omega)]
      simp only [SECONDS, SECONDS_INCREMENT] at *
      refine congrArg₂ Timespec.mk ?_ ?_ <;> omega
  | case2 t h =>
      rw [nanoSecondFieldConversion, dif_neg h]
      simp only [SECONDS, not_lt] at h ⊢
      refine (congrArg₂ Timespec.mk ?_ ?_).symm <;> omega

theorem nanoSecondFieldConversion_noop (t : Timespec) (h : t.tv_nsec ≤ SECONDS - 1) :
    nanoSecondFieldConversion t = t := by
  rw [nanoSecondFieldConversion, dif_neg (by omega)]

/-- C1: for every deadline whose nanosecond field n satisfies n ≥ 0, after
`nanoSecondFieldConversion` the resulting nanosecond field m satisfies
0 ≤ m < 10^9, the resulting seconds equal seconds + ⌊n / 10^9⌋ and
m = n mod 10^9; in particular the
function is a no-op when 0 ≤ n < 10^9. -/
theorem nanoSecondFieldConversion_spec (t : Timespec) (h : 0 ≤ t.tv_nsec) :
    0 ≤ (nanoSecondFieldConversion t).tv_nsec ∧
    (nanoSecondFieldConversion t).tv_nsec < 10 ^ 9 ∧
    (nanoSecondFieldConversion t).tv_sec = t.tv_sec + t.tv_nsec / 10 ^ 9 ∧
    (nanoSecondFieldConversion t).tv_nsec = t.tv_nsec % 10 ^ 9 ∧
    (t.tv_nsec < 10 ^ 9 → nanoSecondFieldConversion t = t) := by
  rw [nanoSecondFieldConversion_closed_form t h]
  simp only [SECONDS]
  refine ⟨by omega, by omega, by norm_num, by norm_num, ?_⟩
  intro hlt
  have h1 : t.tv_nsec / ((10:Int) ^ 9) = 0 := Int.ediv_eq_zero_of_lt h hlt
  have h2 : t.tv_nsec % ((10:Int) ^ 9) = t.tv_nsec := Int.emod_eq_of_lt h hlt
  norm_num at h1 h2
  obtain ⟨s, n⟩ := t
  refine congrArg₂ Timespec.mk ?_ ?_ <;> simp only at h1 h2 ⊢ <;> omega

/-- Witness for C1 at the concrete deadline (2 s, 2500000000 ns):
normalization yields (4 s, 500000000 ns). -/
theorem nanoSecondFieldConversion_spec_witness :
    0 ≤ (Timespec.mk 2 2500000000).tv_nsec ∧
    (0 ≤ (nanoSecondFieldConversion (Timespec.mk 2 2500000000)).tv_nsec ∧
     (nanoSecondFieldConversion (Timespec.mk 2 2500000000)).tv_nsec < 10 ^ 9 ∧
     (nanoSecondFieldConversion (Timespec.mk 2 2500000000)).tv_sec =
       (Timespec.mk 2 2500000000).tv_sec + (Timespec.mk 2 2500000000).tv_nsec / 10 ^ 9 ∧
     (nanoSecondFieldConversion (Timespec.mk 2 2500000000)).tv_nsec =
       (Timespec.mk 2 2500000000).tv_nsec % 10 ^ 9 ∧
     ((Timespec.mk 2 2500000000).tv_nsec < 10 ^ 9 →
       nanoSecondFieldConversion (Timespec.mk 2 2500000000) = Timespec.mk 2 2500000000)) :=
  ⟨by decide, nanoSecondFieldConversion_spec (Timespec.mk 2 2500000000) (by decide)⟩

/-- C9: for every deadline whose nanosecond field is negative,
`nanoSecondFieldConversion` leaves both fields unchanged (the while-loop
condition `tv_nsec > 10^9 - 1` is false at entry), so the invariant
0 ≤ tv_nsec < 10^9 is only re-established for non-negative inputs. -/
theorem nanoSecondFieldConversion_negative_noop (t : Timespec) (h : t.tv_nsec < 0) :
    nanoSecondFieldConversion t = t := by
  apply nanoSecondFieldConversion_noop
  simp only [SECONDS]
  omega

/-- Witness for C9 at the concrete deadline (7 s, -5 ns): unchanged. -/
theorem nanoSecondFieldConversion_negative_noop_witness :
    (Timespec.mk 7 (-5)).tv_nsec < 0 ∧
    nanoSecondFieldConversion (Timespec.mk 7 (-5)) = Timespec.mk 7 (-5) :=
  ⟨by decide, nanoSecondFieldConversion_negative_noop (Timespec.mk 7 (-5)) (by decide)⟩

/-- C2: for a configured period P (nanoseconds) and any number of iterations of
the periodic loop (each iteration adds P to the nanosecond field of the deadline and
then normalizes), the deadline fired at iteration k denotes exactly
next0 + k·P nanoseconds of absolute time, for every k; no drift accumulates. -/
theorem deadlineSeq_no_drift (interval_ns : Int) (next0 : Timespec) (k : Nat) :
    totalNanoseconds (deadlineSeq interval_ns next0 k) =
      totalNanoseconds next0 + k * interval_ns := by
  induction k with
  | zero => simp [deadlineSeq]
  | succ k ih =>
      rw [deadlineSeq, advanceDeadline, nanoSecondFieldConversion_totalNanoseconds]
      simp only [totalNanoseconds] at ih ⊢
      push_cast
      linarith

/-- C4: for every role (producer `publisherETF`, consumer `subscriber`, user
logic `userApplicationPubSub`), the Init step reads the clock time `t0`, sets
the seconds of the first deadline to `t0.tv_sec + SECONDS_SLEEP` (= 5), sets its
nanosecond field to wake-phase-fraction · period (period 250000 ns at the
default 0.25 ms cycle time; fractions 0.6, 0, 0.3), and normalizes (a no-op
here since each offset is < 10^9). -/
theorem initialDeadline_spec (t0 : Timespec) :
    SECONDS_SLEEP = 5 ∧
    ((publisherETF_initialDeadline t0).tv_sec = t0.tv_sec + SECONDS_SLEEP ∧
     ((publisherETF_initialDeadline t0).tv_nsec : ℚ) = (6 / 10 : ℚ) * 250000) ∧
    ((subscriber_initialDeadline t0).tv_sec = t0.tv_sec + SECONDS_SLEEP ∧
     ((subscriber_initialDeadline t0).tv_nsec : ℚ) = (0 : ℚ) * 250000) ∧
    ((userApplicationPubSub_initialDeadline t0).tv_sec = t0.tv_sec + SECONDS_SLEEP ∧
     ((userApplicationPubSub_initialDeadline t0).tv_nsec : ℚ) = (3 / 10 : ℚ) * 250000) := by
  have hp := nanoSecondFieldConversion_noop
      { tv_sec := t0.tv_sec + SECONDS_SLEEP, tv_nsec := publisherETF_initial_tv_nsec }
      (by norm_num [publisherETF_initial_tv_nsec, SECONDS])
  have hsb := nanoSecondFieldConversion_noop
      { tv_sec := t0.tv_sec + SECONDS_SLEEP, tv_nsec := subscriber_initial_tv_nsec }
      (by norm_num [subscriber_initial_tv_nsec, SECONDS])
  have hu := nanoSecondFieldConversion_noop
      { tv_sec := t0.tv_sec + SECONDS_SLEEP, tv_nsec := userApplicationPubSub_initial_tv_nsec }
      (by norm_num [userApplicationPubSub_initial_tv_nsec, SECONDS])
  rw [publisherETF_initialDeadline, hp, subscriber_initialDeadline, hsb,
      userApplicationPubSub_initialDeadline, hu]
  norm_num [publisherETF_initial_tv_nsec, subscriber_initial_tv_nsec,
            userApplicationPubSub_initial_tv_nsec, SECONDS_SLEEP]

/-- C3: with the default configuration (cycle time 0.25 ms, publish-wakeup
fraction 0.6, P = 250000 ns, qbvOffset 125 µs so offset = 125000 ns), at the
fire following a publisher wake at absolute time T (the publisher cycle that
starts at T), the computed transmission timestamp equals
T + P + (P − P·0.6) + offset = T + 250000 + (250000 − 150000) + 125000, in
exact integer nanosecond arithmetic (the UA_UInt64 reduction does not kick in
for clock values below 2^64 − 475000 ns). -/
theorem publisherETF_transmission_time_spec (d : Timespec)
    (hs : 0 ≤ d.tv_sec) (hn : 0 ≤ d.tv_nsec)
    (hb : totalNanoseconds d + 475000 < 2 ^ 64) :
    transmission_time DEFAULT_QBV_OFFSET defaultRoundOffCycleTime
        (advanceDeadline (defaultInterval_ns : Int) d) =
      (totalNanoseconds d).toNat + 250000 + (250000 - 150000) + 125000 := by
  have h0 : (0:Int) ≤ ({ d with tv_nsec := d.tv_nsec + (defaultInterval_ns : Int) } :
      Timespec).tv_nsec := by
    simp only [defaultInterval_ns]
    push_cast
    omega
  rw [advanceDeadline, nanoSecondFieldConversion_closed_form _ h0]
  simp only [transmission_time, u64ofInt, totalNanoseconds, SECONDS, defaultInterval_ns,
             DEFAULT_QBV_OFFSET, defaultRoundOffCycleTime] at *
  push_cast at *
  omega

/-- Witness for C3 at the concrete wake deadline (100 s, 150000 ns). -/
theorem publisherETF_transmission_time_spec_witness :
    (0 ≤ (Timespec.mk 100 150000).tv_sec ∧ 0 ≤ (Timespec.mk 100 150000).tv_nsec ∧
     totalNanoseconds (Timespec.mk 100 150000) + 475000 < 2 ^ 64) ∧
    transmission_time DEFAULT_QBV_OFFSET defaultRoundOffCycleTime
        (advanceDeadline (defaultInterval_ns : Int) (Timespec.mk 100 150000)) =
      (totalNanoseconds (Timespec.mk 100 150000)).toNat + 250000 + (250000 - 150000) + 125000 :=
  ⟨⟨by decide, by decide, by decide⟩,
   publisherETF_transmission_time_spec (Timespec.mk 100 150000)
     (by decide) (by decide) (by decide)⟩

theorem iterateUpdatePublisher_fill (inputs : Nat → Timespec × Nat) (st : AppState)
    (k : Nat) (hk : st.measurementsPublisher + k ≤ MAX_MEASUREMENTS) :
    (iterateUpdatePublisher inputs k st).measurementsPublisher =
        st.measurementsPublisher + k ∧
    (iterateUpdatePublisher inputs k st).running = st.running ∧
    (∀ j, j < k →
      (iterateUpdatePublisher inputs k st).publishTimestamp (st.measurementsPublisher + j) =
          (inputs j).1 ∧
      (iterateUpdatePublisher inputs k st).publishCounterValue (st.measurementsPublisher + j) =
          (inputs j).2) := by
  induction k with
  | zero => exact ⟨rfl, rfl, fun j hj => absurd hj (Nat.not_lt_zero j)⟩
  | succ k ih =>
      obtain ⟨hc, hr, harr⟩ := ih (by omega)
      have hlt : ¬ (iterateUpdatePublisher inputs k st).measurementsPublisher ≥
          MAX_MEASUREMENTS := by omega
      rw [iterateUpdatePublisher, updateMeasurementsPublisher, if_neg hlt]
      refine ⟨by simpa using by omega, by simpa using hr, ?_⟩
      intro j hj
      rcases Nat.lt_succ_iff_lt_or_eq.mp hj with hjk | hjk
      · have hne : st.measurementsPublisher + j ≠
            (iterateUpdatePublisher inputs k st).measurementsPublisher := by omega
        simpa [Function.update_apply, hne] using harr j hjk
      · subst hjk
        constructor <;> simp [Function.update_apply, hc]

theorem iterateUpdateSubscriber_fill (inputs : Nat → Timespec × Nat) (st : AppState)
    (k : Nat) (hk : st.measurementsSubscriber + k ≤ MAX_MEASUREMENTS) :
    (iterateUpdateSubscriber inputs k st).measurementsSubscriber =
        st.measurementsSubscriber + k ∧
    (iterateUpdateSubscriber inputs k st).running = st.running ∧
    (∀ j, j < k →
      (iterateUpdateSubscriber inputs k st).subscribeTimestamp (st.measurementsSubscriber + j) =
          (inputs j).1 ∧
      (iterateUpdateSubscriber inputs k st).subscribeCounterValue (st.measurementsSubscriber + j) =
          (inputs j).2) := by
  induction k with
  | zero => exact ⟨rfl, rfl, fun j hj => absurd hj (Nat.not_lt_zero j)⟩
  | succ k ih =>
      obtain ⟨hc, hr, harr⟩ := ih (by omega)
      have hlt : ¬ (iterateUpdateSubscriber inputs k st).measurementsSubscriber ≥
          MAX_MEASUREMENTS := by omega
      rw [iterateUpdateSubscriber, updateMeasurementsSubscriber, if_neg hlt]
      refine ⟨by simpa using by omega, by simpa using hr, ?_⟩
      intro j hj
      rcases Nat.lt_succ_iff_lt_or_eq.mp hj with hjk | hjk
      · have hne : st.measurementsSubscriber + j ≠
            (iterateUpdateSubscriber inputs k st).measurementsSubscriber := by omega
        simpa [Function.update_apply, hne] using harr j hjk
      · subst hjk
        constructor <;> simp [Function.update_apply, hc]

theorem updateMeasurementsPublisher_overflow (st : AppState) (t : Timespec) (v : Nat)
    (h : st.measurementsPublisher ≥ MAX_MEASUREMENTS) :
    (updateMeasurementsPublisher st t v).measurementsPublisher = st.measurementsPublisher ∧
    (updateMeasurementsPublisher st t v).publishTimestamp = st.publishTimestamp ∧
    (updateMeasurementsPublisher st t v).publishCounterValue = st.publishCounterValue ∧
    (updateMeasurementsPublisher st t v).running = false := by
  rw [updateMeasurementsPublisher, if_pos h]
  exact ⟨rfl, rfl, rfl, rfl⟩

theorem updateMeasurementsSubscriber_overflow (st : AppState) (t : Timespec) (v : Nat)
    (h : st.measurementsSubscriber ≥ MAX_MEASUREMENTS) :
    (updateMeasurementsSubscriber st t v).measurementsSubscriber = st.measurementsSubscriber ∧
    (updateMeasurementsSubscriber st t v).subscribeTimestamp = st.subscribeTimestamp ∧
    (updateMeasurementsSubscriber st t v).subscribeCounterValue = st.subscribeCounterValue ∧
    (updateMeasurementsSubscriber st t v).running = false := by
  rw [updateMeasurementsSubscriber, if_pos h]
  exact ⟨rfl, rfl, rfl, rfl⟩

/-- C5: feeding capacity+1 = `MAX_MEASUREMENTS` + 1 append calls to each
measurement record (publisher side with inputs `fP`, subscriber side with
inputs `fS`), starting from the initial program state: exactly
`MAX_MEASUREMENTS` records are stored (slot i holds input i), the stored count
equals the capacity, the record contents are unchanged by the over-capacity
call, and the `running` flag is false afterwards. -/
theorem measurementRecord_overflow (fP fS : Nat → Timespec × Nat) :
    ((iterateUpdatePublisher fP (MAX_MEASUREMENTS + 1) initialAppState).measurementsPublisher
        = MAX_MEASUREMENTS ∧
     (iterateUpdatePublisher fP (MAX_MEASUREMENTS + 1) initialAppState).publishTimestamp
        = (iterateUpdatePublisher fP MAX_MEASUREMENTS initialAppState).publishTimestamp ∧
     (iterateUpdatePublisher fP (MAX_MEASUREMENTS + 1) initialAppState).publishCounterValue
        = (iterateUpdatePublisher fP MAX_MEASUREMENTS initialAppState).publishCounterValue ∧
     (∀ i : Fin MAX_MEASUREMENTS,
        (iterateUpdatePublisher fP (MAX_MEASUREMENTS + 1) initialAppState).publishTimestamp i
            = (fP i).1 ∧
        (iterateUpdatePublisher fP (MAX_MEASUREMENTS + 1) initialAppState).publishCounterValue i
            = (fP i).2) ∧
     (iterateUpdatePublisher fP (MAX_MEASUREMENTS + 1) initialAppState).running = false) ∧
    ((iterateUpdateSubscriber fS (MAX_MEASUREMENTS + 1) initialAppState).measurementsSubscriber
        = MAX_MEASUREMENTS ∧
     (iterateUpdateSubscriber fS (MAX_MEASUREMENTS + 1) initialAppState).subscribeTimestamp
        = (iterateUpdateSubscriber fS MAX_MEASUREMENTS initialAppState).subscribeTimestamp ∧
     (iterateUpdateSubscriber fS (MAX_MEASUREMENTS + 1) initialAppState).subscribeCounterValue
        = (iterateUpdateSubscriber fS MAX_MEASUREMENTS initialAppState).subscribeCounterValue ∧
     (∀ i : Fin MAX_MEASUREMENTS,
        (iterateUpdateSubscriber fS (MAX_MEASUREMENTS + 1) initialAppState).subscribeTimestamp i
            = (fS i).1 ∧
        (iterateUpdateSubscriber fS (MAX_MEASUREMENTS + 1) initialAppState).subscribeCounterValue i
            = (fS i).2) ∧
     (iterateUpdateSubscriber fS (MAX_MEASUREMENTS + 1) initialAppState).running = false) := by
  have hinit0P : initialAppState.measurementsPublisher = 0 := rfl
  have hinit0S : initialAppState.measurementsSubscriber = 0 := rfl
  obtain ⟨hcP, hrP, haP⟩ :=
    iterateUpdatePublisher_fill fP initialAppState MAX_MEASUREMENTS (by rw [hinit0P, Nat.zero_add])
  obtain ⟨hcS, hrS, haS⟩ :=
    iterateUpdateSubscriber_fill fS initialAppState MAX_MEASUREMENTS (by rw [hinit0S, Nat.zero_add])
  rw [hinit0P] at hcP haP
  rw [hinit0S] at hcS haS
  simp only [Nat.zero_add] at hcP haP hcS haS
  obtain ⟨hocP, hotP, hovP, horP⟩ := updateMeasurementsPublisher_overflow
    (iterateUpdatePublisher fP MAX_MEASUREMENTS initialAppState) (fP MAX_MEASUREMENTS).1
    (fP MAX_MEASUREMENTS).2 (le_of_eq hcP.symm)
  obtain ⟨hocS, hotS, hovS, horS⟩ := updateMeasurementsSubscriber_overflow
    (iterateUpdateSubscriber fS MAX_MEASUREMENTS initialAppState) (fS MAX_MEASUREMENTS).1
    (fS MAX_MEASUREMENTS).2 (le_of_eq hcS.symm)
  rw [iterateUpdatePublisher, iterateUpdateSubscriber, hocP, hotP, hovP, hocS, hotS, hovS]
  exact ⟨⟨hcP, rfl, rfl, fun i => haP i i.isLt, horP⟩,
         ⟨hcS, rfl, rfl, fun i => haS i i.isLt, horS⟩⟩

theorem updateMeasurementsPublisher_counters (st : AppState) (t : Timespec) (v : Nat) :
    (updateMeasurementsPublisher st t v).pubCounterData = st.pubCounterData ∧
    (updateMeasurementsPublisher st t v).repeatedCounterData = st.repeatedCounterData ∧
    (updateMeasurementsPublisher st t v).subCounterData = st.subCounterData ∧
    (updateMeasurementsPublisher st t v).nextnanosleeptimeUserApplication =
        st.nextnanosleeptimeUserApplication := by
  rw [updateMeasurementsPublisher]
  split <;> exact ⟨rfl, rfl, rfl, rfl⟩

theorem updateMeasurementsSubscriber_counters (st : AppState) (t : Timespec) (v : Nat) :
    (updateMeasurementsSubscriber st t v).pubCounterData = st.pubCounterData ∧
    (updateMeasurementsSubscriber st t v).repeatedCounterData = st.repeatedCounterData ∧
    (updateMeasurementsSubscriber st t v).subCounterData = st.subCounterData ∧
    (updateMeasurementsSubscriber st t v).nextnanosleeptimeUserApplication =
        st.nextnanosleeptimeUserApplication := by
  rw [updateMeasurementsSubscriber]
  split <;> exact ⟨rfl, rfl, rfl, rfl⟩

theorem userApplicationPubSub_body_pubCounterData (e : Bool) (cyc : Int) (t1 t2 : Timespec)
    (st : AppState) :
    (userApplicationPubSub_body e cyc t1 t2 st).pubCounterData
        = (st.pubCounterData + 1) % 2 ^ 64 := by
  rw [userApplicationPubSub_body]
  split
  · split
    · rw [(updateMeasurementsSubscriber_counters _ _ _).1,
          (updateMeasurementsPublisher_counters _ _ _).1]
    · rw [(updateMeasurementsPublisher_counters _ _ _).1]
  · rfl

theorem userApplicationPubSub_body_repeatedCounterData (e : Bool) (cyc : Int)
    (t1 t2 : Timespec) (st : AppState) :
    (userApplicationPubSub_body e cyc t1 t2 st).repeatedCounterData
        = fun i => (st.repeatedCounterData i + 1) % 2 ^ 64 := by
  rw [userApplicationPubSub_body]
  split
  · split
    · rw [(updateMeasurementsSubscriber_counters _ _ _).2.1,
          (updateMeasurementsPublisher_counters _ _ _).2.1]
    · rw [(updateMeasurementsPublisher_counters _ _ _).2.1]
  · rfl

theorem userApplicationPubSub_body_subCounterData (e : Bool) (cyc : Int)
    (t1 t2 : Timespec) (st : AppState) :
    (userApplicationPubSub_body e cyc t1 t2 st).subCounterData = st.subCounterData := by
  rw [userApplicationPubSub_body]
  split
  · split
    · rw [(updateMeasurementsSubscriber_counters _ _ _).2.2.1,
          (updateMeasurementsPublisher_counters _ _ _).2.2.1]
    · rw [(updateMeasurementsPublisher_counters _ _ _).2.2.1]
  · rfl

theorem userApplicationPubSub_loop_pubCounterData (e : Bool) (cyc : Int)
    (tsMod tsRecv : Nat → Timespec) (st : AppState) (N : Nat)
    (h : st.pubCounterData + N < 2 ^ 64) :
    (userApplicationPubSub_loop e cyc tsMod tsRecv N st).pubCounterData
        = st.pubCounterData + N := by
  induction N with
  | zero => rfl
  | succ N ih =>
      rw [userApplicationPubSub_loop, userApplicationPubSub_body_pubCounterData,
          ih (by omega), Nat.mod_eq_of_lt (by omega)]
      omega

theorem userApplicationPubSub_loop_repeatedCounterData (e : Bool) (cyc : Int)
    (tsMod tsRecv : Nat → Timespec) (st : AppState) (N : Nat)
    (i : Fin REPEATED_NODECOUNTS) (h : st.repeatedCounterData i + N < 2 ^ 64) :
    (userApplicationPubSub_loop e cyc tsMod tsRecv N st).repeatedCounterData i
        = st.repeatedCounterData i + N := by
  induction N with
  | zero => rfl
  | succ N ih =>
      rw [userApplicationPubSub_loop,
          congrFun (userApplicationPubSub_body_repeatedCounterData e cyc (tsMod N) (tsRecv N)
            (userApplicationPubSub_loop e cyc tsMod tsRecv N st)) i,
          ih (by omega), Nat.mod_eq_of_lt (by omega)]
      omega

/-- C6: for every N ≥ 0, after N iterations of the user-logic loop body (the
only writer of `*pubCounterData` in the model), the producer counter equals
its initial value + N: each iteration adds exactly 1 (UA_UInt64 arithmetic,
which does not wrap below 2^64). -/
theorem userLogic_pubCounter_no_lost_increments (e : Bool) (cyc : Int)
    (tsMod tsRecv : Nat → Timespec) (st : AppState) (N : Nat)
    (h : st.pubCounterData + N < 2 ^ 64) :
    (userApplicationPubSub_loop e cyc tsMod tsRecv N st).pubCounterData
        = st.pubCounterData + N :=
  userApplicationPubSub_loop_pubCounterData e cyc tsMod tsRecv st N h

/-- Witness for C6: 100 iterations from the initial state give counter 100. -/
theorem userLogic_pubCounter_no_lost_increments_witness :
    initialAppState.pubCounterData + 100 < 2 ^ 64 ∧
    (userApplicationPubSub_loop false 250000 (fun _ => Timespec.mk 0 0)
        (fun _ => Timespec.mk 0 0) 100 initialAppState).pubCounterData
      = initialAppState.pubCounterData + 100 :=
  ⟨by decide,
   userLogic_pubCounter_no_lost_increments false 250000 (fun _ => Timespec.mk 0 0)
     (fun _ => Timespec.mk 0 0) initialAppState 100 (by decide)⟩

/-- C10: before its first cycle the user-logic task resets `*pubCounterData`
to 0 but sets every repeated producer counter to 10 (not 0); after N loop
iterations the main producer counter equals N while every repeated producer
counter equals 10 + N. -/
theorem userLogic_repeated_counters_start_at_ten (e : Bool) (cyc : Int)
    (tsMod tsRecv : Nat → Timespec) (t0 : Timespec) (st : AppState) (N : Nat)
    (h : N + 10 < 2 ^ 64) :
    (userApplicationPubSub_init t0 st).pubCounterData = 0 ∧
    (∀ i, (userApplicationPubSub_init t0 st).repeatedCounterData i = 10) ∧
    (userApplicationPubSub_loop e cyc tsMod tsRecv N
        (userApplicationPubSub_init t0 st)).pubCounterData = N ∧
    (∀ i, (userApplicationPubSub_loop e cyc tsMod tsRecv N
        (userApplicationPubSub_init t0 st)).repeatedCounterData i = 10 + N) := by
  have h1 : (userApplicationPubSub_init t0 st).pubCounterData = 0 := rfl
  have h2 : ∀ i, (userApplicationPubSub_init t0 st).repeatedCounterData i = 10 :=
    fun _ => rfl
  refine ⟨h1, h2, ?_, ?_⟩
  · rw [userApplicationPubSub_loop_pubCounterData _ _ _ _ _ _ (by rw [h1]; omega), h1,
        Nat.zero_add]
  · intro i
    rw [userApplicationPubSub_loop_repeatedCounterData _ _ _ _ _ _ i (by rw [h2 i]; omega),
        h2 i, Nat.add_comm]

/-- Witness for C10 at N = 3: producer counter 3, repeated counters 13. -/
theorem userLogic_repeated_counters_start_at_ten_witness :
    3 + 10 < 2 ^ 64 ∧
    ((userApplicationPubSub_init (Timespec.mk 0 0) initialAppState).pubCounterData = 0 ∧
     (∀ i, (userApplicationPubSub_init (Timespec.mk 0 0)
         initialAppState).repeatedCounterData i = 10) ∧
     (userApplicationPubSub_loop false 250000 (fun _ => Timespec.mk 0 0)
         (fun _ => Timespec.mk 0 0) 3
         (userApplicationPubSub_init (Timespec.mk 0 0) initialAppState)).pubCounterData = 3 ∧
     (∀ i, (userApplicationPubSub_loop false 250000 (fun _ => Timespec.mk 0 0)
         (fun _ => Timespec.mk 0 0) 3
         (userApplicationPubSub_init (Timespec.mk 0 0)
           initialAppState)).repeatedCounterData i = 10 + 3)) :=
  ⟨by decide,
   userLogic_repeated_counters_start_at_ten false 250000 (fun _ => Timespec.mk 0 0)
     (fun _ => Timespec.mk 0 0) (Timespec.mk 0 0) initialAppState 3 (by decide)⟩

theorem updateMeasurementsPublisher_success (st : AppState) (t : Timespec) (v : Nat)
    (h : st.measurementsPublisher < MAX_MEASUREMENTS) :
    (updateMeasurementsPublisher st t v).measurementsPublisher =
        st.measurementsPublisher + 1 ∧
    (updateMeasurementsPublisher st t v).publishTimestamp st.measurementsPublisher = t ∧
    (updateMeasurementsPublisher st t v).publishCounterValue st.measurementsPublisher = v ∧
    (updateMeasurementsPublisher st t v).measurementsSubscriber =
        st.measurementsSubscriber ∧
    (updateMeasurementsPublisher st t v).subscribeTimestamp = st.subscribeTimestamp ∧
    (updateMeasurementsPublisher st t v).subscribeCounterValue = st.subscribeCounterValue ∧
    (updateMeasurementsPublisher st t v).running = st.running := by
  rw [updateMeasurementsPublisher, if_neg (by omega)]
  refine ⟨rfl, ?_, ?_, rfl, rfl, rfl, rfl⟩ <;>
    simp [Function.update_same]

theorem updateMeasurementsSubscriber_success (st : AppState) (t : Timespec) (v : Nat)
    (h : st.measurementsSubscriber < MAX_MEASUREMENTS) :
    (updateMeasurementsSubscriber st t v).measurementsSubscriber =
        st.measurementsSubscriber + 1 ∧
    (updateMeasurementsSubscriber st t v).subscribeTimestamp st.measurementsSubscriber = t ∧
    (updateMeasurementsSubscriber st t v).subscribeCounterValue st.measurementsSubscriber = v ∧
    (updateMeasurementsSubscriber st t v).measurementsPublisher =
        st.measurementsPublisher ∧
    (updateMeasurementsSubscriber st t v).publishTimestamp = st.publishTimestamp ∧
    (updateMeasurementsSubscriber st t v).publishCounterValue = st.publishCounterValue ∧
    (updateMeasurementsSubscriber st t v).running = st.running := by
  rw [updateMeasurementsSubscriber, if_neg (by omega)]
  refine ⟨rfl, ?_, ?_, rfl, rfl, rfl, rfl⟩ <;>
    simp [Function.update_same]

theorem updateMeasurementsPublisher_subFields (st : AppState) (t : Timespec) (v : Nat) :
    (updateMeasurementsPublisher st t v).measurementsSubscriber = st.measurementsSubscriber ∧
    (updateMeasurementsPublisher st t v).subscribeTimestamp = st.subscribeTimestamp ∧
    (updateMeasurementsPublisher st t v).subscribeCounterValue = st.subscribeCounterValue := by
  rw [updateMeasurementsPublisher]
  split <;> exact ⟨rfl, rfl, rfl⟩

theorem updateMeasurementsSubscriber_pubFields (st : AppState) (t : Timespec) (v : Nat) :
    (updateMeasurementsSubscriber st t v).measurementsPublisher = st.measurementsPublisher ∧
    (updateMeasurementsSubscriber st t v).publishTimestamp = st.publishTimestamp ∧
    (updateMeasurementsSubscriber st t v).publishCounterValue = st.publishCounterValue := by
  rw [updateMeasurementsSubscriber]
  split <;> exact ⟨rfl, rfl, rfl⟩

/-- C8 (amended): in every iteration of the user-logic loop body with
measurement logging enabled and both records below capacity, the payload
appends the pair ((counter+1) mod 2^64, timestamp) to the producer-side
measurement record, guarded by its capacity check; but it appends to the
consumer-side record only when the subscriber counter is positive — the
consumer-side append is guarded by `*subCounterData > 0` in addition to the
capacity check. -/
theorem userLogic_measurement_appends (cyc : Int) (t1 t2 : Timespec) (st : AppState)
    (hpub : st.measurementsPublisher < MAX_MEASUREMENTS)
    (hsub : st.measurementsSubscriber < MAX_MEASUREMENTS) :
    (userApplicationPubSub_body true cyc t1 t2 st).measurementsPublisher
        = st.measurementsPublisher + 1 ∧
    (userApplicationPubSub_body true cyc t1 t2 st).publishTimestamp st.measurementsPublisher
        = t1 ∧
    (userApplicationPubSub_body true cyc t1 t2 st).publishCounterValue st.measurementsPublisher
        = (st.pubCounterData + 1) % 2 ^ 64 ∧
    (userApplicationPubSub_body true cyc t1 t2 st).measurementsSubscriber
        = (if 0 < st.subCounterData then st.measurementsSubscriber + 1
           else st.measurementsSubscriber) ∧
    (0 < st.subCounterData →
      (userApplicationPubSub_body true cyc t1 t2 st).subscribeTimestamp st.measurementsSubscriber
          = t2 ∧
      (userApplicationPubSub_body true cyc t1 t2 st).subscribeCounterValue st.measurementsSubscriber
          = st.subCounterData) := by
  obtain ⟨hP1, hP2, hP3, hP4, hP5, hP6, hP7⟩ := updateMeasurementsPublisher_success
      { st with pubCounterData := (st.pubCounterData + 1) % 2 ^ 64,
                repeatedCounterData := fun i => (st.repeatedCounterData i + 1) % 2 ^ 64 }
      t1 ((st.pubCounterData + 1) % 2 ^ 64) hpub
  rw [userApplicationPubSub_body]
  rw [if_pos rfl]
  dsimp only at hP1 hP2 hP3 hP4 hP5 hP6 ⊢
  by_cases hpos : 0 < st.subCounterData
  · rw [if_pos hpos, if_pos hpos]
    obtain ⟨hS1, hS2, hS3⟩ := updateMeasurementsSubscriber_pubFields
        (updateMeasurementsPublisher
          { st with pubCounterData := (st.pubCounterData + 1) % 2 ^ 64,
                    repeatedCounterData := fun i => (st.repeatedCounterData i + 1) % 2 ^ 64 }
          t1 ((st.pubCounterData + 1) % 2 ^ 64))
        t2 st.subCounterData
    obtain ⟨hT1, hT2, hT3, _, _, _, _⟩ := updateMeasurementsSubscriber_success
        (updateMeasurementsPublisher
          { st with pubCounterData := (st.pubCounterData + 1) % 2 ^ 64,
                    repeatedCounterData := fun i => (st.repeatedCounterData i + 1) % 2 ^ 64 }
          t1 ((st.pubCounterData + 1) % 2 ^ 64))
        t2 st.subCounterData (by rw [hP4]; exact hsub)
    rw [hP4] at hT1 hT2 hT3
    rw [hS1, hS2, hS3, hP1, hP2, hP3, hT1]
    refine ⟨rfl, rfl, rfl, rfl, fun _ => ⟨?_, ?_⟩⟩
    · rw [hT2]
    · rw [hT3]
  · rw [if_neg hpos, if_neg hpos]
    rw [hP1, hP2, hP3, hP4]
    exact ⟨rfl, rfl, rfl, rfl, fun hc => absurd hc hpos⟩

/-- C8 counterexample: at the initial program state (measurement logging
enabled, both records far below capacity, subscriber counter 0), one iteration
of the user-logic body appends to the producer-side record but NOT to the
consumer-side record, refuting the claim that the payload appends to BOTH
sides guarded only by the capacity check: the consumer-side append is also
guarded by `*subCounterData > 0`. -/
theorem userLogic_no_consumer_append_counterexample :
    initialAppState.measurementsSubscriber < MAX_MEASUREMENTS ∧
    initialAppState.subCounterData = 0 ∧
    (userApplicationPubSub_body true 250000 (Timespec.mk 0 0) (Timespec.mk 0 0)
        initialAppState).measurementsPublisher = 1 ∧
    (userApplicationPubSub_body true 250000 (Timespec.mk 0 0) (Timespec.mk 0 0)
        initialAppState).measurementsSubscriber = 0 := by
  refine ⟨by decide, rfl, ?_, ?_⟩ <;> rfl

/-- Witness for the amended C8 at the initial state with timestamps (1,2) and
(3,4). -/
theorem userLogic_measurement_appends_witness :
    (initialAppState.measurementsPublisher < MAX_MEASUREMENTS ∧
     initialAppState.measurementsSubscriber < MAX_MEASUREMENTS) ∧
    ((userApplicationPubSub_body true 250000 (Timespec.mk 1 2) (Timespec.mk 3 4)
        initialAppState).measurementsPublisher = initialAppState.measurementsPublisher + 1 ∧
     (userApplicationPubSub_body true 250000 (Timespec.mk 1 2) (Timespec.mk 3 4)
        initialAppState).publishTimestamp initialAppState.measurementsPublisher
        = Timespec.mk 1 2 ∧
     (userApplicationPubSub_body true 250000 (Timespec.mk 1 2) (Timespec.mk 3 4)
        initialAppState).publishCounterValue initialAppState.measurementsPublisher
        = (initialAppState.pubCounterData + 1) % 2 ^ 64 ∧
     (userApplicationPubSub_body true 250000 (Timespec.mk 1 2) (Timespec.mk 3 4)
        initialAppState).measurementsSubscriber
        = (if 0 < initialAppState.subCounterData then initialAppState.measurementsSubscriber + 1
           else initialAppState.measurementsSubscriber) ∧
     (0 < initialAppState.subCounterData →
       (userApplicationPubSub_body true 250000 (Timespec.mk 1 2) (Timespec.mk 3 4)
          initialAppState).subscribeTimestamp initialAppState.measurementsSubscriber
          = Timespec.mk 3 4 ∧
       (userApplicationPubSub_body true 250000 (Timespec.mk 1 2) (Timespec.mk 3 4)
          initialAppState).subscribeCounterValue initialAppState.measurementsSubscriber
          = initialAppState.subCounterData)) :=
  ⟨⟨by decide, by decide⟩,
   userLogic_measurement_appends 250000 (Timespec.mk 1 2) (Timespec.mk 3 4) initialAppState
     (by decide) (by decide)⟩

/-- C7: with no `-interface` argument the process returns -1 (nonzero) before
any role thread is created; with a cycle time below 0.125 ms (e.g. 0.1 ms) it
likewise returns -1 before any thread is created; a run that passes the checks
and shuts down cleanly (`UA_Server_run` returns `UA_STATUSCODE_GOOD` = 0)
exits with status 0. -/
theorem main_exit_code_spec :
    (∀ (ct : ℚ) (alloc : Bool) (rs : Nat),
        mainOutcome none ct false alloc rs = MainOutcome.exitBeforeThreads (-1)) ∧
    (∀ (iface : Option String) (ct : ℚ) (alloc : Bool) (rs : Nat), ct < 0.125 →
        mainOutcome iface ct false alloc rs = MainOutcome.exitBeforeThreads (-1)) ∧
    ((-1 : Int) ≠ 0) ∧
    (∀ (s : String) (ct : ℚ), ¬ ct < 0.125 →
        mainOutcome (some s) ct false true 0 = MainOutcome.threadsStarted 0) := by
  refine ⟨?_, ?_, by norm_num, ?_⟩
  · intro ct alloc rs
    rw [mainOutcome, if_neg Bool.false_ne_true, if_pos rfl]
  · intro iface ct alloc rs hct
    rw [mainOutcome, if_neg Bool.false_ne_true]
    rcases iface with _ | s
    · rw [if_pos rfl]
    · rw [if_neg (by simp), if_pos hct]
  · intro s ct hct
    rw [mainOutcome, if_neg Bool.false_ne_true, if_neg (by simp), if_neg hct]
    rfl

/-- Witness for C7: interface "enp2s0", cycle times 0.1 ms (rejected) and
0.25 ms with clean shutdown (exit 0). -/
theorem main_exit_code_spec_witness :
    ((1 : ℚ)/10 < 0.125 ∧
     mainOutcome (some "enp2s0") (1/10) false true 0 = MainOutcome.exitBeforeThreads (-1)) ∧
    (¬ (1 : ℚ)/4 < 0.125 ∧
     mainOutcome (some "enp2s0") (1/4) false true 0 = MainOutcome.threadsStarted 0) :=
  ⟨⟨by norm_num, main_exit_code_spec.2.1 (some "enp2s0") (1/10) true 0 (by norm_num)⟩,
   ⟨by norm_num, main_exit_code_spec.2.2.2 "enp2s0" (1/4) (by norm_num)⟩⟩
